import Mathlib

set_option maxRecDepth 8000

/-!
Shallow embedding of `src/sim_sdk.py` (a simulated cursor-agent CLI SDK) and
verification of the specification claims about it.

Modelling conventions:
* Python dictionaries returned by the SDK become Lean structures whose fields
  are `Option`-valued; an absent dictionary key is `none`.
* Nondeterministic inputs of the real program (wall-clock times, the process
  id, `id(object())`, timestamp strings) are passed in explicitly through
  environment records (`StreamEnv`, `BatchEnv`); the id/timestamp strings are
  then computed exactly as the source computes them.
* `glob.glob(pattern, recursive=True)` is an external filesystem collaborator;
  its result (the matched file list, in match order) is a parameter
  `matched_files` of the batch functions.
* Python truthiness of optional strings (`None`/`""` falsy) is `pyTruthy`;
  Python `a or b` on optional strings is `pyOr`.
* `time.sleep` has no observable effect on the produced values and is dropped.
* `str.format(file=path)` on the prompt templates used here is modelled by
  `pyFormatFile` (substitution of the `{file}` placeholder).
* Python decimal formatting of integers (`f"{n}"`, `str(n)`) is `Nat.repr`.
-/

/-- Python truthiness of an optional string: `None` and `""` are falsy. -/
def pyTruthy : Option String → Bool
  | none => false
  | some s => !(s == "")

/-- Python `a or b` for optional strings (source line 98:
`api_key or os.getenv('CURSOR_API_KEY')`). -/
def pyOr (a b : Option String) : Option String :=
  if pyTruthy a then a else b

/-- One entry of the `file_changes` list in the JSON success payload. -/
structure FileChange where
  path : String
  action : String
  lines_added : Nat
deriving DecidableEq

/-- A Python dict returned by `cursor_agent` / `process_files_glob`
(absent keys are `none`). -/
structure ResultObj where
  result : Option String := none
  recommendations : List String := []
  file_changes : List FileChange := []
  success : Option Bool := none
  prompt : Option String := none
  print_mode : Option Bool := none
  force : Option Bool := none
  output_format : Option String := none
  api_key_set : Option Bool := none
  error : Option String := none
  exit_code : Option Nat := none
  processed_file : Option String := none
deriving DecidableEq

/-- Return type of `cursor_agent`: `Union[str, Dict[str, Any]]`. -/
inductive AgentResult where
  | text (s : String)
  | obj (o : ResultObj)
deriving DecidableEq

/-- Embedding of `cursor_agent` (src/sim_sdk.py lines 54-138).
`env_cursor_api_key` is the value of the environment variable
`CURSOR_API_KEY` (`none` when unset). -/
def cursor_agent (prompt : String) (print_mode : Bool) (force : Bool)
    (output_format : String) (stream_partial_output : Bool)
    (api_key : Option String) (env_cursor_api_key : Option String) : AgentResult :=
  if prompt = "" then
    if output_format = "text" then
      .text "错误：缺少必要的 prompt 参数"
    else
      .obj { error := some "缺少必要的 prompt 参数", exit_code := some 1 }
  else if !print_mode then
    if output_format = "text" then
      .text "错误：非打印模式下不执行操作，请设置 print_mode=True"
    else
      .obj { error := some "非打印模式下不执行操作，请设置 print_mode=True", exit_code := some 1 }
  else
    let effective_api_key := pyOr api_key env_cursor_api_key
    if !pyTruthy effective_api_key then
      if output_format = "text" then
        .text "错误：API密钥未设置，请设置环境变量 CURSOR_API_KEY"
      else
        .obj { error := some "API密钥未设置，请设置环境变量 CURSOR_API_KEY", exit_code := some 1 }
    else if output_format = "json" then
      .obj { result := some "代码审查已完成，未发现严重问题。",
             recommendations := ["添加 JSDoc 注释以提高可读性",
                                 "考虑使用 ES6+ 语法重构旧代码",
                                 "增加单元测试覆盖"],
             file_changes := [{ path := "src/utils.js", action := "updated", lines_added := 12 }],
             success := some true,
             prompt := some prompt,
             print_mode := some print_mode,
             force := some force,
             output_format := some output_format,
             api_key_set := some (pyTruthy effective_api_key),
             exit_code := some 0 }
    else if output_format = "stream-json" then
      .text ""
    else
      .text "这个代码库是一个前端应用，使用 React 和 TypeScript 构建，包含用户认证、数据可视化等功能。"

/-- `_generate_event_id` (source line 42):
`f"evt_{int(time.time() * 1000)}_{os.getpid()}_{id(object()) % 10000}"`,
with the three nondeterministic numeric inputs passed explicitly. -/
def generate_event_id (time_ms pid obj_id : Nat) : String :=
  "evt_" ++ Nat.repr time_ms ++ "_" ++ Nat.repr pid ++ "_" ++ Nat.repr (obj_id % 10000)

/-- `_generate_tool_call_id` (source line 47):
`f"tool_{int(time.time() * 1000000) % 1000000}"`. -/
def generate_tool_call_id (time_us : Nat) : String :=
  "tool_" ++ Nat.repr (time_us % 1000000)

/-- The value stored under the `"message"` key of an event: either a plain
string (error events) or the `{"content": [{"text": ...}]}` shape of
assistant events, modelled as the list of `text` fields. -/
inductive MessageVal where
  | str (s : String)
  | contentTexts (texts : List String)
deriving DecidableEq

/-- Which single key the `"tool_call"` dict of a tool event carries. -/
inductive ToolName where
  | readToolCall
  | writeToolCall
deriving DecidableEq

/-- The `"result"` value inside a completed tool call. -/
inductive ToolResultVal where
  | readSuccess (totalLines : Nat)
  | writeSuccess (linesCreated fileSize : Nat)
deriving DecidableEq

/-- Body of a tool call record: the dict under `"readToolCall"` /
`"writeToolCall"`. `args` is the `"path"` argument when present; absent
keys are `none`. -/
structure ToolCallBody where
  args : Option String := none
  id : Option String := none
  result : Option ToolResultVal := none
deriving DecidableEq

/-- The `"result"` payload of a `file_processed` batch event. -/
structure BatchItemResult where
  recommendations : List String
  lines_added : Nat
deriving DecidableEq

/-- An event dict yielded by the streaming generators; absent keys are
`none`. -/
structure Event where
  type : String
  subtype : Option String := none
  status : Option String := none
  model : Option String := none
  message : Option MessageVal := none
  tool_call : Option (ToolName × ToolCallBody) := none
  duration_ms : Option Nat := none
  file : Option String := none
  progress : Option String := none
  result : Option BatchItemResult := none
  event_id : String
  timestamp : String
deriving DecidableEq

/-- Placeholder event used as the default of positional lookups. -/
def dummyEvent : Event :=
  { type := "", event_id := "", timestamp := "" }

/-- Nondeterministic inputs of one `stream_analysis` run: the inputs of the
single `_generate_event_id` call, of the two `_generate_tool_call_id` calls,
and the successive results of `_get_current_timestamp`. -/
structure StreamEnv where
  ev_time_ms : Nat
  ev_pid : Nat
  ev_obj_id : Nat
  read_time_us : Nat
  write_time_us : Nat
  ts : Nat → String

/-- The fixed text streamed by `stream_analysis` (source line 162,
variable `partial_text` of the source). -/
def analysisText : String :=
  "正在分析项目结构...生成报告摘要...完成文件扫描..."

/-- The character loop of `stream_analysis` (source lines 163-173):
`accumulated += char` then yield an assistant event whose payload is the
whole accumulated text.  `k` indexes the next `_get_current_timestamp`
call. -/
def assistantLoop (eid : String) (ts : Nat → String) :
    Nat → String → List Char → List Event
  | _, _, [] => []
  | k, accumulated, c :: rest =>
    let accumulated2 := accumulated.push c
    { type := "assistant",
      message := some (.contentTexts [accumulated2]),
      event_id := eid,
      timestamp := ts k } :: assistantLoop eid ts (k + 1) accumulated2 rest

/-- The session event id of one `stream_analysis` run (source line 151:
`event_id = _generate_event_id()`, computed once and reused by every
yielded event). -/
def streamEventId (env : StreamEnv) : String :=
  generate_event_id env.ev_time_ms env.ev_pid env.ev_obj_id

/-- The `system`/`init` event (source lines 153-159). -/
def initEvent (env : StreamEnv) : Event :=
  { type := "system", subtype := some "init", model := some "cursor-large-v1",
    event_id := streamEventId env, timestamp := env.ts 0 }

/-- The `tool_call`/`started` event of the `readToolCall` (source lines
176-188); it carries the freshly generated tool-call id. -/
def readStartedEvent (env : StreamEnv) : Event :=
  { type := "tool_call", subtype := some "started",
    tool_call := some (ToolName.readToolCall,
      { args := some "src/", id := some (generate_tool_call_id env.read_time_us) }),
    event_id := streamEventId env, timestamp := env.ts (analysisText.length + 1) }

/-- The `tool_call`/`completed` event of the `readToolCall` (source lines
190-200); its `tool_call` body carries only a `result` key — no id. -/
def readCompletedEvent (env : StreamEnv) : Event :=
  { type := "tool_call", subtype := some "completed",
    tool_call := some (ToolName.readToolCall, { result := some (.readSuccess 450) }),
    event_id := streamEventId env, timestamp := env.ts (analysisText.length + 2) }

/-- The `tool_call`/`started` event of the `writeToolCall` (source lines
203-215). -/
def writeStartedEvent (env : StreamEnv) (output_file : String) : Event :=
  { type := "tool_call", subtype := some "started",
    tool_call := some (ToolName.writeToolCall,
      { args := some output_file, id := some (generate_tool_call_id env.write_time_us) }),
    event_id := streamEventId env, timestamp := env.ts (analysisText.length + 3) }

/-- The `tool_call`/`completed` event of the `writeToolCall` (source lines
217-227); again no id in the `tool_call` body. -/
def writeCompletedEvent (env : StreamEnv) : Event :=
  { type := "tool_call", subtype := some "completed",
    tool_call := some (ToolName.writeToolCall, { result := some (.writeSuccess 23 1024) }),
    event_id := streamEventId env, timestamp := env.ts (analysisText.length + 4) }

/-- The terminal `result` event (source lines 229-234). -/
def resultEvent (env : StreamEnv) : Event :=
  { type := "result", duration_ms := some 1250,
    event_id := streamEventId env, timestamp := env.ts (analysisText.length + 5) }

/-- Embedding of `stream_analysis` (src/sim_sdk.py lines 140-234) as the
list of yielded events.  The `prompt` argument is unused by the source
body as well. -/
def stream_analysis (env : StreamEnv) (prompt output_file : String) : List Event :=
  initEvent env
  :: (assistantLoop (streamEventId env) env.ts 1 "" analysisText.data
  ++ [readStartedEvent env, readCompletedEvent env,
      writeStartedEvent env output_file, writeCompletedEvent env,
      resultEvent env])

/-- Character-level substitution of the `\x7bfile\x7d` placeholder. -/
def substFileChars (fp : List Char) : List Char → List Char
  | '\x7b' :: 'f' :: 'i' :: 'l' :: 'e' :: '\x7d' :: rest => fp ++ substFileChars fp rest
  | c :: rest => c :: substFileChars fp rest
  | [] => []

/-- Python `prompt_template.format(file=file_path)` for the templates used
by the batch functions (whose only format field is the `\x7bfile\x7d`
placeholder). -/
def pyFormatFile (template file_path : String) : String :=
  String.mk (substFileChars file_path.data template.data)

/-- `result["processed_file"] = file_path` (source line 265): defined on the
dict-shaped results; a string result would raise `TypeError` in Python,
modelled by `none`. -/
def setProcessedFile (r : AgentResult) (file_path : String) : Option ResultObj :=
  match r with
  | .obj o => some { o with processed_file := some file_path }
  | .text _ => none

/-- Embedding of `process_files_glob` (src/sim_sdk.py lines 236-268).
`matched_files` is the result of `glob.glob(pattern, recursive=True)`. -/
def process_files_glob (matched_files : List String) (pattern prompt_template : String)
    (env_cursor_api_key : Option String) : List (Option ResultObj) :=
  if matched_files = [] then
    [some { error := some ("未找到匹配 \x27" ++ pattern ++ "\x27 的文件"), exit_code := some 1 }]
  else
    matched_files.map fun file_path =>
      setProcessedFile
        (cursor_agent (pyFormatFile prompt_template file_path) true true "json" false
          none env_cursor_api_key)
        file_path

/-- Inputs of one `_generate_event_id` call. -/
structure GenArgs where
  time_ms : Nat
  pid : Nat
  obj_id : Nat

/-- Nondeterministic inputs of one `stream_process_files_glob` run:
`gen i` are the inputs of the `i`-th `_generate_event_id` call and `ts k`
is the result of the `k`-th `_get_current_timestamp` call. -/
structure BatchEnv where
  gen : Nat → GenArgs
  ts : Nat → String

/-- `_generate_event_id` applied to one bundle of inputs. -/
def genEventId (g : GenArgs) : String :=
  generate_event_id g.time_ms g.pid g.obj_id

/-- The `file_processing`/`started` event yielded for the file at
0-based position `i` (source lines 298-305): it carries
`progress = f"{current}/{total}"` with `current = i + 1`. -/
def fileStartedEvent (be : BatchEnv) (total i : Nat) (file_path : String) : Event :=
  { type := "file_processing", status := some "started", file := some file_path,
    progress := some (Nat.repr (i + 1) ++ "/" ++ Nat.repr total),
    event_id := genEventId (be.gen i), timestamp := be.ts (2 * i) }

/-- The `file_processed`/`completed` event yielded for the file at 0-based
position `i` (source lines 311-324): it reuses the event id generated at
the start of this file and carries no `progress` key. -/
def fileCompletedEvent (be : BatchEnv) (i : Nat) (file_path : String) : Event :=
  { type := "file_processed", status := some "completed", file := some file_path,
    result := some { recommendations := ["添加 JSDoc 注释", "优化函数结构"], lines_added := 8 },
    event_id := genEventId (be.gen i), timestamp := be.ts (2 * i + 1) }

/-- The per-file loop of `stream_process_files_glob` (source lines 294-324):
for each file a fresh event id, a started event, then a completed event.
`i` counts the files already processed. -/
def batchLoop (be : BatchEnv) (total : Nat) : Nat → List String → List Event
  | _, [] => []
  | i, file_path :: rest =>
    fileStartedEvent be total i file_path
    :: fileCompletedEvent be i file_path
    :: batchLoop be total (i + 1) rest

/-- Embedding of `stream_process_files_glob` (src/sim_sdk.py lines 269-324).
The `prompt_template` argument is unused by the source body as well. -/
def stream_process_files_glob (be : BatchEnv) (matched_files : List String)
    (pattern prompt_template : String) : List Event :=
  let total := matched_files.length
  if total = 0 then
    [ { type := "error",
        message := some (.str ("未找到匹配 \x27" ++ pattern ++ "\x27 的文件")),
        event_id := genEventId (be.gen 0), timestamp := be.ts 0 } ]
  else
    batchLoop be total 0 matched_files

/-- The tool-call ids carried by `tool_call` events of the given subtype. -/
def toolIdsBySub (sub : String) (evs : List Event) : List String :=
  evs.filterMap fun e =>
    if e.type = "tool_call" ∧ e.subtype = some sub then
      (e.tool_call.map Prod.snd).bind ToolCallBody.id
    else none

/-- The text payload of an assistant event
(`event["message"]["content"][0]["text"]`). -/
def assistantTextOf (e : Event) : Option String :=
  if e.type = "assistant" then
    match e.message with
    | some (.contentTexts (t :: _)) => some t
    | _ => none
  else none

/-- The assistant text payloads of an event sequence, in emission order. -/
def assistantTexts (evs : List Event) : List String :=
  evs.filterMap assistantTextOf

/-! ### Generic helper lemmas -/

lemma string_data_append (a b : String) : (a ++ b).data = a.data ++ b.data := by
  cases a; cases b; rfl

lemma string_push_data (s : String) (c : Char) : (s.push c).data = s.data ++ [c] := by
  cases s; rfl

lemma digitChar_injOn : ∀ d1 < 10, ∀ d2 < 10, Nat.digitChar d1 = Nat.digitChar d2 → d1 = d2 := by
  decide

lemma map_digitChar_inj : ∀ l1 l2 : List Nat, (∀ d ∈ l1, d < 10) → (∀ d ∈ l2, d < 10) →
    l1.map Nat.digitChar = l2.map Nat.digitChar → l1 = l2 := by
  intro l1
  induction l1 with
  | nil => intro l2 _ _ h; cases l2 <;> simp_all
  | cons a t ih =>
    intro l2 h1 h2 h
    cases l2 with
    | nil => simp_all
    | cons b t2 =>
      simp only [List.map_cons, List.cons.injEq] at h
      have ha : a < 10 := h1 a (by simp)
      have hb : b < 10 := h2 b (by simp)
      have : a = b := digitChar_injOn a ha b hb h.1
      subst this
      have := ih t2 (fun d hd => h1 d (by simp [hd])) (fun d hd => h2 d (by simp [hd])) h.2
      simp [this]

lemma toDigitsCore_eq (b : Nat) (hb : 1 < b) :
    ∀ f n acc, 0 < n → n < b ^ f →
      Nat.toDigitsCore b f n acc = ((Nat.digits b n).map Nat.digitChar).reverse ++ acc := by
  intro f
  induction f with
  | zero => intro n acc hn hlt; simp at hlt; omega
  | succ f ih =>
    intro n acc hn hlt
    rw [Nat.toDigitsCore]
    by_cases hdiv : n / b = 0
    · have hnb : n < b := (Nat.div_eq_zero_iff (by omega)).mp hdiv
      rw [Nat.digits_def' hb hn, hdiv]
      simp [hdiv, Nat.mod_eq_of_lt hnb]
    · have hpos : 0 < n / b := Nat.pos_of_ne_zero hdiv
      have hlt2 : n / b < b ^ f := by
        rw [Nat.div_lt_iff_lt_mul (by omega)]
        calc n < b ^ (f + 1) := hlt
        _ = b ^ f * b := by rw [Nat.pow_succ]
      rw [if_neg hdiv, ih (n / b) _ hpos hlt2, Nat.digits_def' hb hn]
      simp [List.append_assoc]

/-- The decimal digit list of `n`, little-endian, with `0` represented as
`[0]` (matching the one digit that `Nat.repr 0` prints). -/
def decDigits (n : Nat) : List Nat := if n = 0 then [0] else Nat.digits 10 n

lemma repr_eq_decDigits (n : Nat) :
    Nat.repr n = String.mk (((decDigits n).map Nat.digitChar).reverse) := by
  by_cases hn : n = 0
  · subst hn; rfl
  · rw [Nat.repr, Nat.toDigits,
      toDigitsCore_eq 10 (by norm_num) (n + 1) n [] (Nat.pos_of_ne_zero hn)
        (lt_of_lt_of_le (Nat.lt_pow_self (by norm_num) n)
          (Nat.pow_le_pow_right (by norm_num) (Nat.le_succ n)))]
    simp [decDigits, hn, List.asString]

lemma decDigits_lt (n : Nat) : ∀ d ∈ decDigits n, d < 10 := by
  intro d hd
  by_cases hn : n = 0
  · subst hn; simp [decDigits] at hd; omega
  · simp [decDigits, hn] at hd
    exact Nat.digits_lt_base (by norm_num) hd

lemma decDigits_inj : ∀ m n : Nat, decDigits m = decDigits n → m = n := by
  intro m n h
  by_cases hm : m = 0 <;> by_cases hn : n = 0
  · omega
  · exfalso
    simp [decDigits, hm, hn] at h
    have := Nat.ofDigits_digits 10 n
    rw [← h] at this
    simp [Nat.ofDigits] at this
    omega
  · exfalso
    simp [decDigits, hm, hn] at h
    have := Nat.ofDigits_digits 10 m
    rw [h] at this
    simp [Nat.ofDigits] at this
    omega
  · simp only [decDigits, if_neg hm, if_neg hn] at h
    have := congrArg (Nat.ofDigits 10) h
    rwa [Nat.ofDigits_digits, Nat.ofDigits_digits] at this

lemma nat_repr_inj : ∀ m n : Nat, Nat.repr m = Nat.repr n → m = n := by
  intro m n h
  rw [repr_eq_decDigits, repr_eq_decDigits] at h
  have hdata : ((decDigits m).map Nat.digitChar).reverse
      = ((decDigits n).map Nat.digitChar).reverse := congrArg String.data h
  have := List.reverse_injective hdata
  exact decDigits_inj m n (map_digitChar_inj _ _ (decDigits_lt m) (decDigits_lt n) this)

lemma repr_no_slash (n : Nat) : '/' ∉ (Nat.repr n).data := by
  rw [repr_eq_decDigits]
  intro h
  simp [List.mem_reverse, List.mem_map] at h
  obtain ⟨d, hd, heq⟩ := h
  have := decDigits_lt n d hd
  interval_cases d <;> exact absurd heq (by decide)

lemma append_slash_inj : ∀ (x y s t : List Char), '/' ∉ x → '/' ∉ y →
    x ++ '/' :: s = y ++ '/' :: t → x = y ∧ s = t := by
  intro x
  induction x with
  | nil =>
    intro y s t _ hy h
    cases y with
    | nil => simp_all
    | cons b yt =>
      simp at h
      exfalso; apply hy; rw [← h.1]; simp
  | cons a xt ih =>
    intro y s t hx hy h
    cases y with
    | nil =>
      simp at h
      exfalso; apply hx; rw [h.1]; simp
    | cons b yt =>
      simp at h
      obtain ⟨rfl, h2⟩ := h
      have := ih yt s t (by simp_all) (by simp_all) h2
      simp_all

/-- Two progress strings over the same total are equal only when the
current indices are equal. -/
lemma progress_inj (i j N : Nat) :
    Nat.repr i ++ "/" ++ Nat.repr N = Nat.repr j ++ "/" ++ Nat.repr N → i = j := by
  intro h
  have hdata := congrArg String.data h
  rw [string_data_append, string_data_append, string_data_append, string_data_append] at hdata
  have hslash : ("/" : String).data = ['/'] := rfl
  rw [hslash] at hdata
  simp only [List.append_assoc, List.cons_append, List.nil_append] at hdata
  have := append_slash_inj _ _ _ _ (repr_no_slash i) (repr_no_slash j) hdata
  exact nat_repr_inj _ _ (congrArg String.mk this.1)

/-- An event id (prefix `evt_`) is never equal to a tool-call id
(prefix `tool_`). -/
lemma generate_ids_distinct (time_ms pid obj_id time_us : Nat) :
    generate_event_id time_ms pid obj_id ≠ generate_tool_call_id time_us := by
  intro h
  have hd := congrArg String.data h
  simp only [generate_event_id, generate_tool_call_id, string_data_append] at hd
  simp only [List.cons_append, List.append_assoc] at hd
  injection hd with h1 _
  exact absurd h1 (by decide)

/-! ### Properties of the assistant-event loop and of `stream_analysis` -/

lemma string_push_mk (s : String) (c : Char) : s.push c = String.mk (s.data ++ [c]) := by
  cases s; rfl

lemma assistantLoop_mem (eid : String) (ts : Nat → String) :
    ∀ l k (acc : String) e, e ∈ assistantLoop eid ts k acc l →
      e.type = "assistant" ∧ e.tool_call = none ∧ e.event_id = eid := by
  intro l
  induction l with
  | nil => intro k acc e he; simp [assistantLoop] at he
  | cons c rest ih =>
    intro k acc e he
    rw [assistantLoop] at he
    rcases List.mem_cons.mp he with rfl | he2
    · exact ⟨rfl, rfl, rfl⟩
    · exact ih (k + 1) (acc.push c) e he2

lemma assistantLoop_filterMap_eq_nil {α : Type} (f : Event → Option α)
    (hf : ∀ e, e.type = "assistant" → f e = none) (eid : String) (ts : Nat → String) :
    ∀ l k (acc : String), (assistantLoop eid ts k acc l).filterMap f = [] := by
  intro l
  induction l with
  | nil => intro k acc; simp [assistantLoop]
  | cons c rest ih =>
    intro k acc
    rw [assistantLoop, List.filterMap_cons, hf _ rfl]
    exact ih (k + 1) _

lemma assistantLoop_countP_eq_zero (p : Event → Bool)
    (hp : ∀ e, e.type = "assistant" → p e = false) (eid : String) (ts : Nat → String) :
    ∀ l k (acc : String), (assistantLoop eid ts k acc l).countP p = 0 := by
  intro l
  induction l with
  | nil => intro k acc; simp [assistantLoop]
  | cons c rest ih =>
    intro k acc
    rw [assistantLoop, List.countP_cons, hp _ rfl]
    simp [ih (k + 1)]

lemma assistantLoop_filter_eq_nil (p : Event → Bool)
    (hp : ∀ e, e.type = "assistant" → p e = false) (eid : String) (ts : Nat → String) :
    ∀ l k (acc : String), (assistantLoop eid ts k acc l).filter p = [] := by
  intro l
  induction l with
  | nil => intro k acc; simp [assistantLoop]
  | cons c rest ih =>
    intro k acc
    rw [assistantLoop, List.filter_cons]
    rw [hp _ rfl]
    simp only [Bool.false_eq_true, if_false]
    exact ih (k + 1) _

lemma assistantLoop_texts (eid : String) (ts : Nat → String) :
    ∀ l k (acc : String), assistantTexts (assistantLoop eid ts k acc l)
      = (List.range l.length).map (fun i => String.mk (acc.data ++ l.take (i + 1))) := by
  intro l
  induction l with
  | nil => intro k acc; simp [assistantLoop, assistantTexts]
  | cons c rest ih =>
    intro k acc
    rw [assistantLoop]
    have h1 : assistantTextOf
        { type := "assistant", message := some (.contentTexts [acc.push c]),
          event_id := eid, timestamp := ts k } = some (acc.push c) := rfl
    rw [assistantTexts, List.filterMap_cons_some h1]
    have h2 := ih (k + 1) (acc.push c)
    rw [assistantTexts] at h2
    rw [h2, List.length_cons, List.range_succ_eq_map, List.map_cons, List.map_map]
    congr 1
    refine List.map_congr_left fun i _ => ?_
    simp only [Function.comp_apply, string_push_data, List.take_succ_cons,
      List.append_assoc, List.singleton_append]

lemma assistantTexts_stream_analysis (env : StreamEnv) (p f : String) :
    assistantTexts (stream_analysis env p f)
      = (List.range analysisText.length).map
          (fun i => String.mk (analysisText.data.take (i + 1))) := by
  have hl := assistantLoop_texts (streamEventId env) env.ts analysisText.data 1 ""
  rw [assistantTexts] at hl
  simp only [stream_analysis, assistantTexts, List.filterMap_cons, List.filterMap_append, hl]
  simp [assistantTextOf, initEvent, readStartedEvent, readCompletedEvent, writeStartedEvent,
    writeCompletedEvent, resultEvent]

/-! ### Properties of the batch loop -/

lemma batchLoop_length (be : BatchEnv) (total : Nat) :
    ∀ l i, (batchLoop be total i l).length = 2 * l.length := by
  intro l
  induction l with
  | nil => intro i; simp [batchLoop]
  | cons a rest ih =>
    intro i
    rw [batchLoop]
    simp only [List.length_cons, ih (i + 1)]
    omega

lemma batchLoop_getElem_started (be : BatchEnv) (total : Nat) :
    ∀ l i j, j < l.length →
      (batchLoop be total i l)[2 * j]?
        = some (fileStartedEvent be total (i + j) (l.getD j "")) := by
  intro l
  induction l with
  | nil => intro i j hj; simp at hj
  | cons a rest ih =>
    intro i j hj
    cases j with
    | zero => rw [batchLoop]; rfl
    | succ j =>
      have h2 : 2 * (j + 1) = 2 * j + 1 + 1 := by ring
      rw [batchLoop, h2]
      simp only [List.getElem?_cons_succ]
      rw [ih (i + 1) j (by simpa using hj)]
      have h3 : i + 1 + j = i + (j + 1) := by omega
      rw [h3, List.getD_cons_succ]

lemma batchLoop_getElem_completed (be : BatchEnv) (total : Nat) :
    ∀ l i j, j < l.length →
      (batchLoop be total i l)[2 * j + 1]?
        = some (fileCompletedEvent be (i + j) (l.getD j "")) := by
  intro l
  induction l with
  | nil => intro i j hj; simp at hj
  | cons a rest ih =>
    intro i j hj
    cases j with
    | zero => rw [batchLoop]; norm_num
    | succ j =>
      have h2 : 2 * (j + 1) + 1 = 2 * j + 1 + 1 + 1 := by ring
      rw [batchLoop, h2]
      simp only [List.getElem?_cons_succ]
      rw [ih (i + 1) j (by simpa using hj)]
      have h3 : i + 1 + j = i + (j + 1) := by omega
      rw [h3, List.getD_cons_succ]

lemma batchLoop_countP_progress (be : BatchEnv) (total k : Nat) :
    ∀ l i, (batchLoop be total i l).countP
        (fun e => e.progress == some (Nat.repr k ++ "/" ++ Nat.repr total))
      = if i + 1 ≤ k ∧ k ≤ i + l.length then 1 else 0 := by
  intro l
  induction l with
  | nil =>
    intro i
    rw [batchLoop]
    simp only [List.countP_nil, List.length_nil]
    rw [if_neg (by omega)]
  | cons a rest ih =>
    intro i
    rw [batchLoop, List.countP_cons, List.countP_cons, ih (i + 1)]
    have hc : (((fileCompletedEvent be i a).progress
        == some (Nat.repr k ++ "/" ++ Nat.repr total))) = false := rfl
    rw [hc]
    by_cases hk : k = i + 1
    · subst hk
      have hs : (((fileStartedEvent be total i a).progress
          == some (Nat.repr (i + 1) ++ "/" ++ Nat.repr total))) = true := by
        simp [fileStartedEvent]
      rw [hs]
      simp only [Bool.false_eq_true, if_false, if_true, add_zero, List.length_cons]
      split_ifs <;> omega
    · have hs : (((fileStartedEvent be total i a).progress
          == some (Nat.repr k ++ "/" ++ Nat.repr total))) = false := by
        simp only [fileStartedEvent, beq_eq_false_iff_ne, ne_eq, Option.some.injEq]
        intro h
        exact hk (progress_inj (i + 1) k total h).symm
      rw [hs]
      simp only [Bool.false_eq_true, if_false, add_zero, List.length_cons]
      split_ifs <;> omega

lemma batchLoop_countP_progress_isSome (be : BatchEnv) (total : Nat) :
    ∀ l i, (batchLoop be total i l).countP (fun e => e.progress.isSome) = l.length := by
  intro l
  induction l with
  | nil => intro i; simp [batchLoop]
  | cons a rest ih =>
    intro i
    rw [batchLoop, List.countP_cons, List.countP_cons, ih (i + 1)]
    rfl

/-! ### Case lemmas for `cursor_agent` -/

lemma cursor_agent_json_error_of_key (prompt : String) (force spo : Bool)
    (k env : Option String) (hk : pyTruthy (pyOr k env) = false) :
    ∃ o : ResultObj, cursor_agent prompt true force "json" spo k env = .obj o
      ∧ o.error.isSome ∧ o.exit_code = some 1 := by
  rw [cursor_agent]
  by_cases hp : prompt = ""
  · rw [if_pos hp, if_neg (by decide)]
    exact ⟨_, rfl, rfl, rfl⟩
  · rw [if_neg hp]
    simp only [Bool.not_true, Bool.false_eq_true, if_false, hk, Bool.not_false, if_true]
    rw [if_neg (by decide)]
    exact ⟨_, rfl, rfl, rfl⟩

lemma cursor_agent_json_obj (prompt : String) (force spo : Bool) (k env : Option String) :
    ∃ o : ResultObj, cursor_agent prompt true force "json" spo k env = .obj o
      ∧ ((o.error.isSome ∧ o.exit_code = some 1) ∨ (o.success = some true ∧ o.exit_code = some 0)) := by
  rw [cursor_agent]
  by_cases hp : prompt = ""
  · rw [if_pos hp, if_neg (by decide)]
    exact ⟨_, rfl, Or.inl ⟨rfl, rfl⟩⟩
  · rw [if_neg hp]
    simp only [Bool.not_true, Bool.false_eq_true, if_false]
    by_cases hk : pyTruthy (pyOr k env)
    · simp only [hk, Bool.not_true, Bool.false_eq_true, if_false, if_true]
      exact ⟨_, rfl, Or.inr ⟨rfl, rfl⟩⟩
    · simp only [Bool.not_eq_true] at hk
      simp only [hk, Bool.not_false, if_true]
      rw [if_neg (by decide)]
      exact ⟨_, rfl, Or.inl ⟨rfl, rfl⟩⟩

lemma cursor_agent_json_key_error (prompt : String) (force spo : Bool)
    (k env : Option String) (hp : prompt ≠ "") (hk : pyTruthy (pyOr k env) = false) :
    cursor_agent prompt true force "json" spo k env
      = .obj { error := some "API密钥未设置，请设置环境变量 CURSOR_API_KEY", exit_code := some 1 } := by
  rw [cursor_agent, if_neg hp]
  simp only [Bool.not_true, Bool.false_eq_true, if_false, hk, Bool.not_false, if_true]
  rw [if_neg (by decide)]

lemma cursor_agent_text_key_error (prompt : String) (force spo : Bool)
    (k env : Option String) (hp : prompt ≠ "") (hk : pyTruthy (pyOr k env) = false) :
    cursor_agent prompt true force "text" spo k env
      = .text "错误：API密钥未设置，请设置环境变量 CURSOR_API_KEY" := by
  rw [cursor_agent, if_neg hp]
  simp only [Bool.not_true, Bool.false_eq_true, if_false, hk, Bool.not_false, if_true]

/-! ### Structural lemmas about `stream_analysis` -/

lemma toolIdsBySub_assistantLoop (sub eid : String) (ts : Nat → String)
    (l : List Char) (k : Nat) (acc : String) :
    toolIdsBySub sub (assistantLoop eid ts k acc l) = [] := by
  rw [toolIdsBySub]
  apply assistantLoop_filterMap_eq_nil
  intro e he
  have hne : ¬ (e.type = "tool_call" ∧ e.subtype = some sub) := by
    rintro ⟨h1, -⟩
    rw [he] at h1
    exact absurd h1 (by decide)
  rw [if_neg hne]

lemma toolIdsBySub_stream_analysis_started (env : StreamEnv) (p f : String) :
    toolIdsBySub "started" (stream_analysis env p f)
      = [generate_tool_call_id env.read_time_us, generate_tool_call_id env.write_time_us] := by
  have hloop := toolIdsBySub_assistantLoop "started" (streamEventId env) env.ts
    analysisText.data 1 ""
  rw [toolIdsBySub] at hloop
  simp [toolIdsBySub, stream_analysis, List.filterMap_cons, List.filterMap_append, hloop,
    initEvent, readStartedEvent, readCompletedEvent, writeStartedEvent, writeCompletedEvent,
    resultEvent]

lemma toolIdsBySub_stream_analysis_completed (env : StreamEnv) (p f : String) :
    toolIdsBySub "completed" (stream_analysis env p f) = [] := by
  have hloop := toolIdsBySub_assistantLoop "completed" (streamEventId env) env.ts
    analysisText.data 1 ""
  rw [toolIdsBySub] at hloop
  simp [toolIdsBySub, stream_analysis, List.filterMap_cons, List.filterMap_append, hloop,
    initEvent, readStartedEvent, readCompletedEvent, writeStartedEvent, writeCompletedEvent,
    resultEvent]

/-- The `(subtype, tool name)` pairs of the `tool_call` events, in emission
order. -/
def toolCallKinds (evs : List Event) : List (Option String × Option ToolName) :=
  (evs.filter fun e => e.type == "tool_call").map fun e => (e.subtype, e.tool_call.map Prod.fst)

lemma toolCallKinds_stream_analysis (env : StreamEnv) (p f : String) :
    toolCallKinds (stream_analysis env p f)
      = [(some "started", some .readToolCall), (some "completed", some .readToolCall),
         (some "started", some .writeToolCall), (some "completed", some .writeToolCall)] := by
  have hloop : (assistantLoop (streamEventId env) env.ts 1 "" analysisText.data).filter
      (fun e => e.type == "tool_call") = [] := by
    apply assistantLoop_filter_eq_nil
    intro e he
    show (e.type == "tool_call") = false
    rw [he]
    decide
  simp [toolCallKinds, stream_analysis, List.filter_cons, List.filter_append, hloop,
    initEvent, readStartedEvent, readCompletedEvent, writeStartedEvent, writeCompletedEvent,
    resultEvent]

lemma stream_analysis_countP_system (env : StreamEnv) (p f : String) :
    (stream_analysis env p f).countP (fun e => e.type == "system") = 1 := by
  have hloop : (assistantLoop (streamEventId env) env.ts 1 "" analysisText.data).countP
      (fun e => e.type == "system") = 0 := by
    apply assistantLoop_countP_eq_zero
    intro e he
    show (e.type == "system") = false
    rw [he]
    decide
  simp [stream_analysis, List.countP_cons, List.countP_append, hloop,
    initEvent, readStartedEvent, readCompletedEvent, writeStartedEvent, writeCompletedEvent,
    resultEvent]

lemma stream_analysis_countP_result (env : StreamEnv) (p f : String) :
    (stream_analysis env p f).countP (fun e => e.type == "result") = 1 := by
  have hloop : (assistantLoop (streamEventId env) env.ts 1 "" analysisText.data).countP
      (fun e => e.type == "result") = 0 := by
    apply assistantLoop_countP_eq_zero
    intro e he
    show (e.type == "result") = false
    rw [he]
    decide
  simp [stream_analysis, List.countP_cons, List.countP_append, hloop,
    initEvent, readStartedEvent, readCompletedEvent, writeStartedEvent, writeCompletedEvent,
    resultEvent]

lemma stream_analysis_head (env : StreamEnv) (p f : String) :
    (stream_analysis env p f).head? = some (initEvent env) := rfl

lemma stream_analysis_getLast (env : StreamEnv) (p f : String) :
    (stream_analysis env p f).getLast? = some (resultEvent env) := by
  rw [stream_analysis]
  have hsplit : initEvent env :: (assistantLoop (streamEventId env) env.ts 1 "" analysisText.data
      ++ [readStartedEvent env, readCompletedEvent env,
          writeStartedEvent env f, writeCompletedEvent env, resultEvent env])
    = (initEvent env :: (assistantLoop (streamEventId env) env.ts 1 "" analysisText.data
      ++ [readStartedEvent env, readCompletedEvent env,
          writeStartedEvent env f, writeCompletedEvent env])) ++ [resultEvent env] := by
    simp
  rw [hsplit, List.getLast?_concat]

lemma stream_analysis_mem (env : StreamEnv) (p f : String) (e : Event)
    (he : e ∈ stream_analysis env p f) :
    e.event_id = streamEventId env
    ∧ (e.tool_call = none
       ∨ e = readStartedEvent env ∨ e = readCompletedEvent env
       ∨ e = writeStartedEvent env f ∨ e = writeCompletedEvent env) := by
  rw [stream_analysis] at he
  rcases List.mem_cons.mp he with rfl | he2
  · exact ⟨rfl, Or.inl rfl⟩
  rcases List.mem_append.mp he2 with hl | hr
  · have hm := assistantLoop_mem (streamEventId env) env.ts analysisText.data 1 "" e hl
    exact ⟨hm.2.2, Or.inl hm.2.1⟩
  · simp only [List.mem_cons, List.not_mem_nil, or_false] at hr
    rcases hr with rfl | rfl | rfl | rfl | rfl
    · exact ⟨rfl, Or.inr (Or.inl rfl)⟩
    · exact ⟨rfl, Or.inr (Or.inr (Or.inl rfl))⟩
    · exact ⟨rfl, Or.inr (Or.inr (Or.inr (Or.inl rfl)))⟩
    · exact ⟨rfl, Or.inr (Or.inr (Or.inr (Or.inr rfl)))⟩
    · exact ⟨rfl, Or.inl rfl⟩

/-! ### Concrete demonstration inputs -/

/-- A concrete `StreamEnv` used by witnesses and counterexamples. -/
def demoStreamEnv : StreamEnv :=
  { ev_time_ms := 1, ev_pid := 2, ev_obj_id := 3, read_time_us := 4, write_time_us := 5,
    ts := fun _ => "2024-01-01T00:00:00" }

/-- A concrete `BatchEnv` used by witnesses and counterexamples. -/
def demoBatchEnv : BatchEnv :=
  { gen := fun i => { time_ms := 100 + i, pid := 7, obj_id := 8 },
    ts := fun _ => "2024-01-01T00:00:00" }

/-! ### Claim theorems -/

/-- Claim C3, amended: for an empty prompt `cursor_agent` returns an error
dict with `exit_code = 1` for the `json` and `stream-json` output formats,
but for the `text` format it returns an error string that carries no exit
code at all. -/
theorem cursor_agent_empty_prompt (print_mode force spo : Bool)
    (api_key env_key : Option String) :
    cursor_agent "" print_mode force "json" spo api_key env_key
      = .obj { error := some "缺少必要的 prompt 参数", exit_code := some 1 }
    ∧ cursor_agent "" print_mode force "stream-json" spo api_key env_key
      = .obj { error := some "缺少必要的 prompt 参数", exit_code := some 1 }
    ∧ cursor_agent "" print_mode force "text" spo api_key env_key
      = .text "错误：缺少必要的 prompt 参数" := by
  refine ⟨?_, ?_, ?_⟩ <;> rfl

/-- Counterexample for claim C3: with `output_format = "text"` and an empty
prompt, `cursor_agent` does not return an error object carrying exit code 1
(it returns a plain string). -/
theorem cursor_agent_empty_prompt_text_counterexample :
    ¬ ∃ o : ResultObj, cursor_agent "" true false "text" false none none
        = AgentResult.obj o ∧ o.error.isSome ∧ o.exit_code = some 1 := by
  rintro ⟨o, h, -, -⟩
  rw [show cursor_agent "" true false "text" false none none
      = AgentResult.text "错误：缺少必要的 prompt 参数" from rfl] at h
  exact AgentResult.noConfusion h

/-- Claim C4, amended: a *truthy* (non-empty) explicit `api_key` wins over
the environment variable; the environment variable is used whenever the
explicit argument is `None` **or the empty string**; when neither yields a
truthy key the call fails before any backend step (error dict with
`exit_code = 1` for `json`, error string for `text`); a resolved key is
never the empty string. -/
theorem cursor_agent_credential_resolution (prompt : String) (force spo : Bool)
    (api_key env_key : Option String) (hp : prompt ≠ "") :
    (pyTruthy api_key = true → pyOr api_key env_key = api_key)
    ∧ (pyTruthy api_key = false → pyOr api_key env_key = env_key)
    ∧ (pyTruthy (pyOr api_key env_key) = false →
        cursor_agent prompt true force "json" spo api_key env_key
          = .obj { error := some "API密钥未设置，请设置环境变量 CURSOR_API_KEY", exit_code := some 1 }
        ∧ cursor_agent prompt true force "text" spo api_key env_key
          = .text "错误：API密钥未设置，请设置环境变量 CURSOR_API_KEY")
    ∧ (∀ s, pyOr api_key env_key = some s → pyTruthy (pyOr api_key env_key) = true → s ≠ "") := by
  refine ⟨?_, ?_,
    fun hk => ⟨cursor_agent_json_key_error prompt force spo _ _ hp hk,
      cursor_agent_text_key_error prompt force spo _ _ hp hk⟩, ?_⟩
  · intro h; rw [pyOr, if_pos h]
  · intro h; simp [pyOr, h]
  · intro s hs ht hse
    rw [hse] at hs
    rw [hs] at ht
    exact absurd ht (by decide)

/-- Witness for C4 (amended): with no explicit key and no environment key
the call fails with an error dict carrying exit code 1. -/
theorem cursor_agent_credential_resolution_witness :
    ("你好" : String) ≠ ""
    ∧ pyTruthy (pyOr none none) = false
    ∧ cursor_agent "你好" true true "json" false none none
        = .obj { error := some "API密钥未设置，请设置环境变量 CURSOR_API_KEY", exit_code := some 1 } :=
  ⟨by decide, by decide,
    ((cursor_agent_credential_resolution "你好" true false none none (by decide)).2.2.1
      (by decide)).1⟩

/-- Counterexample for claim C4: with an explicitly supplied *empty-string*
`api_key` and `CURSOR_API_KEY` set, the environment variable is used even
though an explicit argument was supplied, and the call succeeds. -/
theorem cursor_agent_empty_key_env_wins :
    (some "" ≠ (none : Option String))
    ∧ pyOr (some "") (some "secret") = some "secret"
    ∧ ∃ o : ResultObj, cursor_agent "你好" true false "json" false (some "") (some "secret")
        = AgentResult.obj o ∧ o.success = some true ∧ o.exit_code = some 0 := by
  refine ⟨by decide, by decide, ⟨_, rfl, rfl, rfl⟩⟩

/-- Claim C5: with a non-empty prompt, `print_mode = true` and a resolvable
key, `output_format = "stream-json"` makes `cursor_agent` return the empty
string (not an object). -/
theorem cursor_agent_stream_json_returns_empty (prompt : String) (force spo : Bool)
    (api_key env_key : Option String) (hp : prompt ≠ "")
    (hk : pyTruthy (pyOr api_key env_key) = true) :
    cursor_agent prompt true force "stream-json" spo api_key env_key = .text "" := by
  rw [cursor_agent, if_neg hp]
  simp only [Bool.not_true, Bool.false_eq_true, if_false, hk, if_true]
  rw [if_neg (by decide)]

/-- Witness for C5. -/
theorem cursor_agent_stream_json_returns_empty_witness :
    ("hi" : String) ≠ "" ∧ pyTruthy (pyOr (some "key123") none) = true
    ∧ cursor_agent "hi" true false "stream-json" false (some "key123") none = .text "" :=
  ⟨by decide, by decide,
    cursor_agent_stream_json_returns_empty "hi" false false (some "key123") none
      (by decide) (by decide)⟩

/-- Claim C8: for an empty glob expansion `process_files_glob` returns a
single-element list whose sole element is an error dict with
`exit_code = 1` — never the empty list. -/
theorem process_files_glob_empty_sentinel (pattern template : String)
    (env_key : Option String) :
    ∃ o : ResultObj, process_files_glob [] pattern template env_key = [some o]
      ∧ o.error.isSome ∧ o.exit_code = some 1 :=
  ⟨{ error := some ("未找到匹配 \x27" ++ pattern ++ "\x27 的文件"), exit_code := some 1 },
    by rw [process_files_glob, if_pos rfl], rfl, rfl⟩

/-- Claim C1, amended: in every `stream_analysis` run the two
`tool_call/started` events carry the freshly generated read / write
tool-call ids, but the `tool_call/completed` events carry **no** tool-call
id (their `tool_call` bodies hold only a `result` key), so the list of
completed ids is empty rather than equal to the started ids; the pairing
is positional and un-interleaved (read started, read completed, write
started, write completed, in that order); the `result` event is the last
element and occurs once; exactly one `system/init` event occurs and it is
first. -/
theorem stream_analysis_lifecycle (env : StreamEnv) (prompt output_file : String) :
    toolIdsBySub "started" (stream_analysis env prompt output_file)
      = [generate_tool_call_id env.read_time_us, generate_tool_call_id env.write_time_us]
    ∧ toolIdsBySub "completed" (stream_analysis env prompt output_file) = []
    ∧ toolCallKinds (stream_analysis env prompt output_file)
        = [(some "started", some .readToolCall), (some "completed", some .readToolCall),
           (some "started", some .writeToolCall), (some "completed", some .writeToolCall)]
    ∧ ((stream_analysis env prompt output_file).head?).map (fun e => (e.type, e.subtype))
        = some ("system", some "init")
    ∧ (stream_analysis env prompt output_file).countP (fun e => e.type == "system") = 1
    ∧ ((stream_analysis env prompt output_file).getLast?).map Event.type = some "result"
    ∧ (stream_analysis env prompt output_file).countP (fun e => e.type == "result") = 1 :=
  ⟨toolIdsBySub_stream_analysis_started env prompt output_file,
   toolIdsBySub_stream_analysis_completed env prompt output_file,
   toolCallKinds_stream_analysis env prompt output_file,
   by rw [stream_analysis_head]; rfl,
   stream_analysis_countP_system env prompt output_file,
   by rw [stream_analysis_getLast]; rfl,
   stream_analysis_countP_result env prompt output_file⟩

/-- Counterexample for claim C1: in a concrete run, the multiset of
tool-call ids carried by `tool_call/started` events is **not** equal to the
multiset carried by `tool_call/completed` events (the completed events
carry none). -/
theorem stream_analysis_tool_ids_not_matched :
    ¬ List.Perm
        (toolIdsBySub "started" (stream_analysis demoStreamEnv "分析项目" "analysis.txt"))
        (toolIdsBySub "completed" (stream_analysis demoStreamEnv "分析项目" "analysis.txt")) := by
  decide

/-- Claim C6: assistant-event payloads of one `stream_analysis` run are the
successive prefixes of the streamed text (each payload is the entire
accumulated text so far), and their lengths are monotonically
non-decreasing in emission order. -/
theorem stream_analysis_assistant_cumulative (env : StreamEnv) (prompt output_file : String) :
    assistantTexts (stream_analysis env prompt output_file)
      = (List.range analysisText.length).map
          (fun i => String.mk (analysisText.data.take (i + 1)))
    ∧ ∀ i j, i ≤ j → j < (assistantTexts (stream_analysis env prompt output_file)).length →
        ((assistantTexts (stream_analysis env prompt output_file)).getD i "").length
          ≤ ((assistantTexts (stream_analysis env prompt output_file)).getD j "").length := by
  refine ⟨assistantTexts_stream_analysis env prompt output_file, ?_⟩
  intro i j hij hj
  rw [assistantTexts_stream_analysis env prompt output_file] at hj ⊢
  rw [List.length_map, List.length_range] at hj
  rw [List.getD_eq_getElem?_getD, List.getD_eq_getElem?_getD, List.getElem?_map,
    List.getElem?_map, List.getElem?_range hj, List.getElem?_range (lt_of_le_of_lt hij hj)]
  show (String.mk (analysisText.data.take (i + 1))).length
    ≤ (String.mk (analysisText.data.take (j + 1))).length
  show (analysisText.data.take (i + 1)).length ≤ (analysisText.data.take (j + 1)).length
  rw [List.length_take, List.length_take]
  omega

/-- Witness for C6. -/
theorem stream_analysis_assistant_cumulative_witness :
    (0 : Nat) ≤ 1
    ∧ 1 < (assistantTexts (stream_analysis demoStreamEnv "p" "analysis.txt")).length
    ∧ ((assistantTexts (stream_analysis demoStreamEnv "p" "analysis.txt")).getD 0 "").length
        ≤ ((assistantTexts (stream_analysis demoStreamEnv "p" "analysis.txt")).getD 1 "").length :=
  ⟨by decide, by decide,
    (stream_analysis_assistant_cumulative demoStreamEnv "p" "analysis.txt").2 0 1
      (by decide) (by decide)⟩

/-- Claim C7: every event of one `stream_analysis` run carries the same
event id (the one generated at the start of the session), and any tool-call
id carried inside a `tool_call` event is distinct from that event id. -/
theorem stream_analysis_shared_event_id (env : StreamEnv) (prompt output_file : String) :
    (∀ e ∈ stream_analysis env prompt output_file, e.event_id = streamEventId env)
    ∧ (∀ e ∈ stream_analysis env prompt output_file, ∀ tn tb,
        e.tool_call = some (tn, tb) → ∀ tid, tb.id = some tid → tid ≠ e.event_id) := by
  constructor
  · intro e he
    exact (stream_analysis_mem env prompt output_file e he).1
  · intro e he tn tb htc tid hid
    have hm := stream_analysis_mem env prompt output_file e he
    rw [hm.1]
    rcases hm.2 with hnone | rfl | rfl | rfl | rfl
    · rw [hnone] at htc
      exact Option.noConfusion htc
    · simp only [readStartedEvent, Option.some.injEq, Prod.mk.injEq] at htc
      rcases htc with ⟨-, rfl⟩
      simp only [Option.some.injEq] at hid
      rw [← hid]
      intro hc
      exact generate_ids_distinct env.ev_time_ms env.ev_pid env.ev_obj_id env.read_time_us hc.symm
    · simp only [readCompletedEvent, Option.some.injEq, Prod.mk.injEq] at htc
      rcases htc with ⟨-, rfl⟩
      exact Option.noConfusion hid
    · simp only [writeStartedEvent, Option.some.injEq, Prod.mk.injEq] at htc
      rcases htc with ⟨-, rfl⟩
      simp only [Option.some.injEq] at hid
      rw [← hid]
      intro hc
      exact generate_ids_distinct env.ev_time_ms env.ev_pid env.ev_obj_id env.write_time_us hc.symm
    · simp only [writeCompletedEvent, Option.some.injEq, Prod.mk.injEq] at htc
      rcases htc with ⟨-, rfl⟩
      exact Option.noConfusion hid

/-- Witness for C7: in a concrete run, the first event and the read
`started` event share the session event id, and the read tool-call id
"tool_4" differs from it. -/
theorem stream_analysis_shared_event_id_witness :
    ((stream_analysis demoStreamEnv "p" "analysis.txt").getD 0 dummyEvent).event_id
      = streamEventId demoStreamEnv
    ∧ "tool_4" ≠ ((stream_analysis demoStreamEnv "p" "analysis.txt").getD 30 dummyEvent).event_id :=
  ⟨(stream_analysis_shared_event_id demoStreamEnv "p" "analysis.txt").1 _ (by decide),
   (stream_analysis_shared_event_id demoStreamEnv "p" "analysis.txt").2 _ (by decide)
     ToolName.readToolCall { args := some "src/", id := some "tool_4" } (by decide)
     "tool_4" (by decide)⟩

/-- Claim C2, amended: for `N > 0` matched files `stream_process_files_glob`
yields exactly `2N` events, the pairs come in glob match order (the events
at positions `2j` and `2j+1` are the started/completed pair of the `j`-th
matched file), each progress string `"j+1/N"` appears exactly **once** —
in the `file_processing/started` event of the corresponding pair — and the
`file_processed/completed` events carry no progress field at all (exactly
`N` events carry a progress field). -/
theorem stream_batch_progress (be : BatchEnv) (files : List String)
    (pattern template : String) (hne : files ≠ []) :
    (stream_process_files_glob be files pattern template).length = 2 * files.length
    ∧ (∀ j, j < files.length →
        (stream_process_files_glob be files pattern template)[2 * j]?
          = some (fileStartedEvent be files.length j (files.getD j ""))
        ∧ (stream_process_files_glob be files pattern template)[2 * j + 1]?
          = some (fileCompletedEvent be j (files.getD j "")))
    ∧ (∀ j, j < files.length →
        (stream_process_files_glob be files pattern template).countP
          (fun e => e.progress == some (Nat.repr (j + 1) ++ "/" ++ Nat.repr files.length)) = 1)
    ∧ (stream_process_files_glob be files pattern template).countP
        (fun e => e.progress.isSome) = files.length := by
  have hlen : ¬ files.length = 0 := fun h0 => hne (List.length_eq_zero.mp h0)
  have hrw : stream_process_files_glob be files pattern template
      = batchLoop be files.length 0 files := by
    rw [stream_process_files_glob, if_neg hlen]
  refine ⟨?_, ?_, ?_, ?_⟩
  · rw [hrw, batchLoop_length]
  · intro j hj
    constructor
    · rw [hrw, batchLoop_getElem_started be files.length files 0 j hj, Nat.zero_add]
    · rw [hrw, batchLoop_getElem_completed be files.length files 0 j hj, Nat.zero_add]
  · intro j hj
    rw [hrw, batchLoop_countP_progress be files.length (j + 1) files 0]
    rw [if_pos (by omega)]
  · rw [hrw, batchLoop_countP_progress_isSome]

/-- Witness for C2 (amended): a two-file batch has four events and the
progress string "2/2" appears exactly once. -/
theorem stream_batch_progress_witness :
    (["a.js", "b.js"] : List String) ≠ []
    ∧ (stream_process_files_glob demoBatchEnv ["a.js", "b.js"] "src/*.js" "为 {file} 添加注释").length = 4
    ∧ (stream_process_files_glob demoBatchEnv ["a.js", "b.js"] "src/*.js" "为 {file} 添加注释").countP
        (fun e => e.progress == some (Nat.repr 2 ++ "/" ++ Nat.repr 2)) = 1 :=
  ⟨by decide,
   (stream_batch_progress demoBatchEnv ["a.js", "b.js"] "src/*.js" "为 {file} 添加注释"
     (by decide)).1,
   (stream_batch_progress demoBatchEnv ["a.js", "b.js"] "src/*.js" "为 {file} 添加注释"
     (by decide)).2.2.1 1 (by decide)⟩

/-- Counterexample for claim C2: with one matched file the progress string
"1/1" appears only once in the whole output, not twice — the completed
event carries no progress field. -/
theorem stream_batch_progress_not_twice :
    ¬ ((stream_process_files_glob demoBatchEnv ["a.js"] "src/*.js" "为 {file} 添加注释").length
        = 2 * 1
      ∧ ∀ k < 1, (stream_process_files_glob demoBatchEnv ["a.js"] "src/*.js" "为 {file} 添加注释").countP
          (fun e => e.progress == some (Nat.repr (k + 1) ++ "/" ++ Nat.repr 1)) = 2) := by
  decide

/-- Claim C9: for a non-empty glob expansion `process_files_glob` returns
one dict per matched file in match order, each tagged with
`processed_file = path`; when no credential is resolvable every element is
an error dict with `exit_code = 1` and `processed_file` still set (per-item
errors, not the empty-match sentinel). -/
theorem process_files_glob_per_file (matched_files : List String)
    (pattern template : String) (env_key : Option String) (hne : matched_files ≠ []) :
    (process_files_glob matched_files pattern template env_key).length = matched_files.length
    ∧ (∀ j, j < matched_files.length → ∃ o : ResultObj,
        (process_files_glob matched_files pattern template env_key).getD j none = some o
        ∧ o.processed_file = some (matched_files.getD j ""))
    ∧ (pyTruthy env_key = false → ∀ j, j < matched_files.length → ∃ o : ResultObj,
        (process_files_glob matched_files pattern template env_key).getD j none = some o
        ∧ o.error.isSome ∧ o.exit_code = some 1
        ∧ o.processed_file = some (matched_files.getD j "")) := by
  have hrw : process_files_glob matched_files pattern template env_key
      = matched_files.map fun file_path =>
          setProcessedFile
            (cursor_agent (pyFormatFile template file_path) true true "json" false
              none env_key)
            file_path := by
    rw [process_files_glob, if_neg hne]
  have hget : ∀ j, j < matched_files.length →
      (process_files_glob matched_files pattern template env_key).getD j none
        = setProcessedFile
            (cursor_agent (pyFormatFile template (matched_files.getD j "")) true true "json" false
              none env_key)
            (matched_files.getD j "") := by
    intro j hj
    rw [hrw, List.getD_eq_getElem?_getD, List.getElem?_map, List.getElem?_eq_getElem hj,
      ← List.getD_eq_getElem matched_files "" hj]
    rfl
  refine ⟨by rw [hrw, List.length_map], ?_, ?_⟩
  · intro j hj
    obtain ⟨o, ho, -⟩ := cursor_agent_json_obj
      (pyFormatFile template (matched_files.getD j "")) true false none env_key
    refine ⟨{ o with processed_file := some (matched_files.getD j "") }, ?_, rfl⟩
    rw [hget j hj, ho]
    rfl
  · intro hk j hj
    obtain ⟨o, ho, herr, hexit⟩ := cursor_agent_json_error_of_key
      (pyFormatFile template (matched_files.getD j "")) true false none env_key hk
    refine ⟨{ o with processed_file := some (matched_files.getD j "") }, ?_, herr, hexit, rfl⟩
    rw [hget j hj, ho]
    rfl

/-- Witness for C9: a one-file batch with no credential yields one error
dict with exit code 1 tagged with the file path. -/
theorem process_files_glob_per_file_witness :
    (["a.js"] : List String) ≠ []
    ∧ pyTruthy (none : Option String) = false
    ∧ (process_files_glob ["a.js"] "src/*.js" "审查 {file}" none).length = 1
    ∧ ∃ o : ResultObj, (process_files_glob ["a.js"] "src/*.js" "审查 {file}" none).getD 0 none
        = some o ∧ o.error.isSome ∧ o.exit_code = some 1 ∧ o.processed_file = some "a.js" :=
  ⟨by decide, by decide,
   (process_files_glob_per_file ["a.js"] "src/*.js" "审查 {file}" none (by decide)).1,
   (process_files_glob_per_file ["a.js"] "src/*.js" "审查 {file}" none (by decide)).2.2
     (by decide) 0 (by decide)⟩

/-- Claim C10: in `stream_process_files_glob` the started and completed
events of the `j`-th file share one event id, namely the one produced by
the `j`-th fresh `_generate_event_id` call (event ids are scoped per batch
item, not shared across the batch). -/
theorem stream_batch_fresh_event_id (be : BatchEnv) (files : List String)
    (pattern template : String) :
    ∀ j, j < files.length →
      ((stream_process_files_glob be files pattern template).getD (2 * j) dummyEvent).event_id
        = genEventId (be.gen j)
      ∧ ((stream_process_files_glob be files pattern template).getD (2 * j + 1) dummyEvent).event_id
        = genEventId (be.gen j) := by
  intro j hj
  have hlen : ¬ files.length = 0 := by
    intro h0
    rw [h0] at hj
    omega
  have hrw : stream_process_files_glob be files pattern template
      = batchLoop be files.length 0 files := by
    rw [stream_process_files_glob, if_neg hlen]
  constructor
  · rw [hrw, List.getD_eq_getElem?_getD,
      batchLoop_getElem_started be files.length files 0 j hj, Nat.zero_add]
    rfl
  · rw [hrw, List.getD_eq_getElem?_getD,
      batchLoop_getElem_completed be files.length files 0 j hj, Nat.zero_add]
    rfl

/-- Witness for C10. -/
theorem stream_batch_fresh_event_id_witness :
    (0 : Nat) < 1
    ∧ ((stream_process_files_glob demoBatchEnv ["a.js"] "src/*.js" "t").getD 0 dummyEvent).event_id
        = genEventId (demoBatchEnv.gen 0)
    ∧ ((stream_process_files_glob demoBatchEnv ["a.js"] "src/*.js" "t").getD 1 dummyEvent).event_id
        = genEventId (demoBatchEnv.gen 0) :=
  ⟨by decide,
   (stream_batch_fresh_event_id demoBatchEnv ["a.js"] "src/*.js" "t" 0 (by decide)).1,
   (stream_batch_fresh_event_id demoBatchEnv ["a.js"] "src/*.js" "t" 0 (by decide)).2⟩
